import Mathlib

/-!
Shallow embedding of the autopost service (src/services/autopost.py).

The service is a single-run orchestration pipeline: quota gate, context
fetch, LLM generation with fallback, hard 250-character clamp, platform
post, persistence.  Collaborators (database, LLM client, platform client,
tier manager) are modelled as an environment of fallible functions
(`Except String _` models a call that may raise), and `run` is a total
Lean function returning the structured result dict together with a trace
of the side-effecting calls it made.
-/

/-- Characters that Python's `str.strip()` / `str.rstrip()` remove
(ASCII whitespace: space, tab, newline, carriage return, vertical tab,
form feed). -/
def pyIsSpace (c : Char) : Bool :=
  c == ' ' || c == '\t' || c == '\n' || c == '\r' ||
  c == Char.ofNat 11 || c == Char.ofNat 12

/-- Python `s.lstrip()` on the character list. -/
def lstripL (l : List Char) : List Char := l.dropWhile pyIsSpace

/-- Python `s.rstrip()` on the character list. -/
def rstripL (l : List Char) : List Char :=
  (l.reverse.dropWhile pyIsSpace).reverse

/-- Python `s.strip()` on the character list. -/
def stripL (l : List Char) : List Char := rstripL (lstripL l)

/-- Python `s.strip()`. -/
def pyStrip (s : String) : String := ⟨stripL s.data⟩

/-- Python `s.rstrip()`. -/
def pyRstrip (s : String) : String := ⟨rstripL s.data⟩

/-- Python `s[:n]` (slicing by code points). -/
def pyTake (n : Nat) (s : String) : String := ⟨s.data.take n⟩

/-- Python `len(s)` (code points). -/
def pyLen (s : String) : Nat := s.data.length

/-- `MAX_CHARS` from src/services/autopost.py. -/
def MAX_CHARS : Nat := 250

/-- `FALLBACK_TWEETS` from src/services/autopost.py, verbatim. -/
def FALLBACK_TWEETS : List String := [
  "spent hours mapping levels, scenarios, and invalidations. entered anyway with no stop because it felt right. price immediately showed me why feelings are not a strategy.",
  "every trade starts with confidence, slowly turns into hope, then ends with acceptance. somehow i still act surprised when the cycle repeats exactly the same way.",
  "watched price respect my levels perfectly while i hesitated. entered late, sized too big, and blamed execution instead of the obvious lack of discipline.",
  "told myself i was waiting for confirmation. what i really did was wait until the risk was worse and the reward was gone.",
  "another trade where i was right about direction, wrong about timing, and absolutely confident it would still work out anyway.",
  "i don’t chase tops or bottoms. i chase the feeling that this time i finally figured it out.",
  "the plan was simple. the execution wasn’t. the result was predictable."]

/-- Python values that can flow out of the LLM client (`llm.chat` may
return a string, a dict, `None`, or anything else). -/
inductive PyVal where
  | none : PyVal
  | str (s : String) : PyVal
  | dict (entries : List (String × PyVal)) : PyVal
  | other : PyVal

/-- Python `random.choice(l)`, with the random draw supplied as a
natural-number seed (`random.choice` picks an index below `l.length`). -/
def randomChoice (seed : Nat) (l : List String) : String :=
  l.getD (seed % l.length) ""

/-- Python `result.get(key)` on the modelled dict (absent key gives
`None`). -/
def dictGet (entries : List (String × PyVal)) (k : String) : PyVal :=
  match entries.lookup k with
  | some v => v
  | Option.none => PyVal.none

/-- The key-probing loop inside `normalize_post_text`: for each key in
order, if the value is a string with non-empty strip, return the
stripped value; otherwise continue; fall back at the end. -/
def tryKeys (seed : Nat) (entries : List (String × PyVal)) :
    List String → String
  | [] => randomChoice seed FALLBACK_TWEETS
  | k :: ks =>
    match dictGet entries k with
    | PyVal.str v =>
      if pyStrip v = "" then tryKeys seed entries ks else pyStrip v
    | _ => tryKeys seed entries ks

/-- `normalize_post_text` from src/services/autopost.py.  The
`random.choice` draw used when nothing is usable is passed as `seed`. -/
def normalize_post_text (seed : Nat) (result : PyVal) : String :=
  match result with
  | PyVal.str s => if pyStrip s = "" then randomChoice seed FALLBACK_TWEETS else pyStrip s
  | PyVal.dict entries => tryKeys seed entries ["post", "text", "content", "tweet"]
  | _ => randomChoice seed FALLBACK_TWEETS

example : normalize_post_text 0 (PyVal.str "  hi there  ") = "hi there" := by decide
example : normalize_post_text 0 (PyVal.dict [("text", PyVal.str " x ")]) = "x" := by decide
example : normalize_post_text 3 PyVal.none = FALLBACK_TWEETS.getD 3 "" := by decide

/-- `SYSTEM_PROMPT` from src/services/autopost.py, verbatim. -/
def SYSTEM_PROMPT : String :=
  "\nYou are a degen trading Twitter account.\n\nStyle rules:\n- First-person\n- Casual, cynical trader tone\n- Aim for 180–250 characters\n- Never exceed 250 characters\n- No emojis\n- No hashtags\n- No advice\n- No explanations\n- No meta commentary\n\nContent:\n- Bad entries and exits\n- Overconfidence, regret, cope\n- Charts, candles, leverage, timing\n- Emotional, observational, impulsive\n\nWrite tweets that feel posted right after staring at charts too long.\n"

/-- The message list built in `run()` (system prompt plus the user
message interpolating the fetched history). -/
def buildMessages (previous_posts : String) : List (String × String) :=
  [("system", SYSTEM_PROMPT),
   ("user", "\nRecent tweets (do not repeat wording or structure):\n" ++
     previous_posts ++ "\n\nWrite one new tweet.\nOutput ONLY the tweet text.\n")]

/-- Values appearing in the result dict returned by `run()`. -/
inductive RVal where
  | bool (b : Bool) : RVal
  | str (s : String) : RVal
  | num (q : ℚ) : RVal

/-- The result dict type: Python dict with string keys. -/
abbrev RDict := List (String × RVal)

/-- Python `round(x, 1)`: wall-clock durations rounded to one decimal
place of a second (reals modelled as rationals). -/
def round1 (q : ℚ) : ℚ := ((round (q * 10) : ℤ) : ℚ) / 10

/-- The tier manager collaborator: `can_post() -> (bool, reason)`,
plus the `tier` and `get_usage_percent()` diagnostics read on denial. -/
structure TierManager where
  allowed : Bool
  reason : String
  tier : String
  usagePercent : ℚ

/-- One run's collaborator behaviour.  Each fallible call is an
`Except String _` (`.error e` models the call raising with message `e`);
`elapsed` is the wall-clock time consumed by the run, read at the point
of return; `seed`/`seed2` feed the two `random.choice` call sites. -/
structure Env where
  tierManager : Option TierManager
  getRecentPosts : Except String String
  chat : List (String × String) → Except String PyVal
  createTweet : String → Except String (List (String × String))
  savePost : String → String → Except String Unit
  seed : Nat
  seed2 : Nat
  elapsed : ℚ

/-- Trace of the externally visible calls a run makes: number of LLM
chat calls, number of history fetches, the texts handed to
`TwitterClient.post`, the post responses received, and the
`(text, tweet_id)` pairs handed to `db.save_post`. -/
structure Trace where
  chatCalls : Nat
  dbFetches : Nat
  postedTexts : List String
  postResponses : List (List (String × String))
  savedPosts : List (String × String)

/-- `TwitterClient.post` from src/services/autopost.py, text-only call
as made by `run()`: strips the text, raises `ValueError` when it is
empty (no media), otherwise calls `create_tweet` with the stripped text
and returns `response.data or {}` (any `TweepyException` re-raised). -/
def TwitterClient.post (createTweet : String → Except String (List (String × String)))
    (text : String) : Except String (List (String × String)) :=
  let t := pyStrip text
  if t = "" then Except.error "Cannot post empty tweet: must provide text or media"
  else createTweet t

/-- `AutoPostService.safe_chat`: an LLM call that never raises —
any exception is converted to `None`. -/
def AutoPostService.safe_chat (chat : List (String × String) → Except String PyVal)
    (messages : List (String × String)) : PyVal :=
  match chat messages with
  | Except.ok v => v
  | Except.error _ => PyVal.none

/-- The failure result built by the top-level `except` boundary of
`run()`. -/
def failResult (e : String) (duration : ℚ) : RDict :=
  [("success", RVal.bool false), ("error", RVal.str e),
   ("duration_seconds", RVal.num duration)]

/-- The early-return result when the tier manager denies posting. -/
def blockedResult (tm : TierManager) : RDict :=
  [("success", RVal.bool false),
   ("error", RVal.str ("posting_blocked: " ++ tm.reason)),
   ("tier", RVal.str tm.tier),
   ("usage_percent", RVal.num tm.usagePercent)]

/-- The success result of `run()`. -/
def successResult (tweetId text : String) (duration : ℚ) : RDict :=
  [("success", RVal.bool true), ("tweet_id", RVal.str tweetId),
   ("text", RVal.str text), ("duration_seconds", RVal.num duration)]

/-- The publish-and-persist tail of `run()` (the "Post to Twitter" and
"Save to DB" sections), given the final clamped text. -/
def publishStage (createTweet : String → Except String (List (String × String)))
    (savePost : String → String → Except String Unit)
    (duration : ℚ) (post_text : String) : RDict × Trace :=
  match TwitterClient.post createTweet post_text with
  | Except.error e => (failResult e duration, ⟨1, 1, [post_text], [], []⟩)
  | Except.ok tweet_data =>
    if tweet_data.isEmpty || (tweet_data.lookup "id").isNone then
      (failResult "Twitter post returned invalid response" duration,
       ⟨1, 1, [post_text], [tweet_data], []⟩)
    else
      let tweetId := (tweet_data.lookup "id").getD ""
      match savePost post_text tweetId with
      | Except.error e =>
        (failResult e duration,
         ⟨1, 1, [post_text], [tweet_data], [(post_text, tweetId)]⟩)
      | Except.ok _ =>
        (successResult tweetId post_text duration,
         ⟨1, 1, [post_text], [tweet_data], [(post_text, tweetId)]⟩)

/-- The body of `run()` past the tier gate (everything inside the
`try` after the quota check), together with the call trace. -/
def runBody (env : Env) (duration : ℚ) : RDict × Trace :=
  match env.getRecentPosts with
  | Except.error e => (failResult e duration, ⟨0, 1, [], [], []⟩)
  | Except.ok previous_posts =>
    let raw_result := AutoPostService.safe_chat env.chat (buildMessages previous_posts)
    let pt₁ := normalize_post_text env.seed raw_result
    let pt₂ := pyStrip pt₁
    let pt₃ := if pt₂ = "" then randomChoice env.seed2 FALLBACK_TWEETS else pt₂
    let post_text := pyRstrip (pyTake MAX_CHARS pt₃)
    publishStage env.createTweet env.savePost duration post_text

/-- `AutoPostService.run` from src/services/autopost.py: tier gate,
then the try-block body; the top-level boundary is reflected in every
branch producing a result dict rather than propagating an error. -/
def AutoPostService.run (env : Env) : RDict × Trace :=
  match env.tierManager with
  | some tm =>
    if tm.allowed then runBody env (round1 env.elapsed)
    else (blockedResult tm, ⟨0, 0, [], [], []⟩)
  | none => runBody env (round1 env.elapsed)

/-! ### String lemmas: Python strip semantics -/

lemma rstripL_eq_rdropWhile (l : List Char) :
    rstripL l = List.rdropWhile pyIsSpace l := rfl

lemma length_rstripL_le (l : List Char) : (rstripL l).length ≤ l.length := by
  have h := (List.dropWhile_sublist (l := l.reverse) pyIsSpace).length_le
  simpa [rstripL] using h

lemma dropWhile_append_last {a : Char} (h : pyIsSpace a = false) :
    ∀ m : List Char, ∃ s, (m ++ [a]).dropWhile pyIsSpace = s ++ [a] := by
  intro m
  induction m with
  | nil => exact ⟨[], by simp [List.dropWhile_cons, h]⟩
  | cons x xs ih =>
    by_cases hx : pyIsSpace x
    · obtain ⟨s, hs⟩ := ih
      exact ⟨s, by simp [List.dropWhile_cons, hx, hs]⟩
    · exact ⟨x :: xs, by simp [List.dropWhile_cons, hx]⟩

lemma rstripL_cons {a : Char} (h : pyIsSpace a = false) (u : List Char) :
    ∃ s, rstripL (a :: u) = a :: s := by
  obtain ⟨s, hs⟩ := dropWhile_append_last h u.reverse
  refine ⟨s.reverse, ?_⟩
  simp [rstripL, hs]

lemma lstripL_cons_false {a : Char} (h : pyIsSpace a = false) (u : List Char) :
    lstripL (a :: u) = a :: u := by
  simp [lstripL, List.dropWhile_cons, h]

lemma lstripL_head_false {l : List Char} {a : Char} {u : List Char}
    (h : lstripL l = a :: u) : pyIsSpace a = false := by
  induction l with
  | nil => simp [lstripL] at h
  | cons x xs ih =>
    by_cases hx : pyIsSpace x
    · exact ih (by simpa [lstripL, List.dropWhile_cons, hx] using h)
    · simp only [lstripL, List.dropWhile_cons, hx] at h
      obtain ⟨rfl, -⟩ := List.cons.injEq .. ▸ h
      simpa using hx

lemma stripL_head_false {l : List Char} {a : Char} {u : List Char}
    (h : stripL l = a :: u) : pyIsSpace a = false := by
  unfold stripL at h
  rcases hm : lstripL l with - | ⟨b, w⟩
  · rw [hm] at h
    simp [rstripL] at h
  · have hb : pyIsSpace b = false := lstripL_head_false hm
    obtain ⟨s, hs⟩ := rstripL_cons hb w
    rw [hm, hs] at h
    obtain ⟨rfl, -⟩ := List.cons.injEq .. ▸ h
    exact hb

lemma rstripL_rstripL (l : List Char) : rstripL (rstripL l) = rstripL l := by
  rw [rstripL_eq_rdropWhile, rstripL_eq_rdropWhile]
  exact List.rdropWhile_idempotent pyIsSpace l

lemma lstripL_stripL (l : List Char) : lstripL (stripL l) = stripL l := by
  rcases h : stripL l with - | ⟨a, u⟩
  · rfl
  · exact lstripL_cons_false (stripL_head_false h) u

lemma stripL_idem (l : List Char) : stripL (stripL l) = stripL l := by
  show rstripL (lstripL (stripL l)) = stripL l
  rw [lstripL_stripL]
  show rstripL (rstripL (lstripL l)) = stripL l
  rw [rstripL_rstripL]
  rfl

lemma stripL_take_nonempty {x : List Char} (hself : stripL x = x)
    (hne : x ≠ []) (n : Nat) (hn : 0 < n) :
    stripL (rstripL (x.take n)) ≠ [] := by
  rcases x with - | ⟨a, u⟩
  · exact absurd rfl hne
  have ha : pyIsSpace a = false := stripL_head_false hself
  obtain ⟨n', rfl⟩ : ∃ n', n = n' + 1 := ⟨n - 1, by omega⟩
  rw [List.take_succ_cons]
  obtain ⟨s, hs⟩ := rstripL_cons ha (u.take n')
  rw [hs]
  show rstripL (lstripL (a :: s)) ≠ []
  rw [lstripL_cons_false ha]
  obtain ⟨s', hs'⟩ := rstripL_cons ha s
  rw [hs']
  simp

/-! ### String-level wrappers -/

lemma pyStrip_data (s : String) : (pyStrip s).data = stripL s.data := rfl

lemma pyStrip_idem (s : String) : pyStrip (pyStrip s) = pyStrip s := by
  show (⟨stripL (stripL s.data)⟩ : String) = ⟨stripL s.data⟩
  rw [stripL_idem]

lemma mk_eq_empty_iff (m : List Char) : (⟨m⟩ : String) = "" ↔ m = [] := by
  constructor
  · intro h
    have : (⟨m⟩ : String) = ⟨[]⟩ := h
    injection this
  · rintro rfl
    rfl

lemma pyLen_rstrip_take_le (n : Nat) (s : String) :
    pyLen (pyRstrip (pyTake n s)) ≤ n := by
  show (rstripL (s.data.take n)).length ≤ n
  calc (rstripL (s.data.take n)).length
      ≤ (s.data.take n).length := length_rstripL_le _
    _ ≤ n := by simp [List.length_take]

lemma pyStrip_rstrip_take_ne_empty {s : String} (hself : pyStrip s = s)
    (hne : s ≠ "") (n : Nat) (hn : 0 < n) :
    pyStrip (pyRstrip (pyTake n s)) ≠ "" := by
  intro hcontra
  have hdata : stripL s.data = s.data := by
    have := congrArg String.data hself
    simpa [pyStrip_data] using this
  have hne' : s.data ≠ [] := by
    intro h
    apply hne
    cases s
    simp_all [mk_eq_empty_iff]
  have hkey := stripL_take_nonempty hdata hne' n hn
  apply hkey
  have : (⟨stripL (rstripL (s.data.take n))⟩ : String) = "" := hcontra
  exact (mk_eq_empty_iff _).mp this

/-! ### Fallback pool facts -/

/-- A string is "clean" when it is non-empty, fixed by `strip`, and
within the hard character limit. -/
def cleanText (s : String) : Prop :=
  pyStrip s = s ∧ s ≠ "" ∧ pyLen s ≤ MAX_CHARS

instance (s : String) : Decidable (cleanText s) := by
  unfold cleanText
  infer_instance

set_option maxRecDepth 4096 in
lemma fallback_all_clean : ∀ f ∈ FALLBACK_TWEETS, cleanText f := by decide

lemma randomChoice_fallback_mem (seed : Nat) :
    randomChoice seed FALLBACK_TWEETS ∈ FALLBACK_TWEETS := by
  have hlt : seed % FALLBACK_TWEETS.length < FALLBACK_TWEETS.length :=
    Nat.mod_lt _ (by decide)
  unfold randomChoice
  rw [List.getD_eq_getElem _ _ hlt]
  exact List.getElem_mem hlt

lemma randomChoice_fallback_clean (seed : Nat) :
    cleanText (randomChoice seed FALLBACK_TWEETS) :=
  fallback_all_clean _ (randomChoice_fallback_mem seed)

/-! ### Normalizer cleanliness -/

lemma pyStrip_clean_of_ne {s : String} (h : pyStrip s ≠ "") :
    pyStrip (pyStrip s) = pyStrip s ∧ pyStrip s ≠ "" :=
  ⟨pyStrip_idem s, h⟩

lemma tryKeys_clean (seed : Nat) (entries : List (String × PyVal)) :
    ∀ ks : List String,
      pyStrip (tryKeys seed entries ks) = tryKeys seed entries ks ∧
      tryKeys seed entries ks ≠ "" := by
  intro ks
  induction ks with
  | nil =>
    have h := randomChoice_fallback_clean seed
    exact ⟨h.1, h.2.1⟩
  | cons k ks ih =>
    show pyStrip (tryKeys seed entries (k :: ks)) = _ ∧ _
    unfold tryKeys
    rcases dictGet entries k with - | v | es | -
    · exact ih
    · by_cases hv : pyStrip v = ""
      · simpa [hv] using ih
      · simpa [hv] using pyStrip_clean_of_ne hv
    · exact ih
    · exact ih

/-- The Text Normalizer always yields a trimmed, non-empty string,
whatever the generator returned. -/
lemma normalize_clean (seed : Nat) (raw : PyVal) :
    pyStrip (normalize_post_text seed raw) = normalize_post_text seed raw ∧
    normalize_post_text seed raw ≠ "" := by
  rcases raw with - | s | entries | -
  · have h := randomChoice_fallback_clean seed
    exact ⟨h.1, h.2.1⟩
  · show pyStrip (normalize_post_text seed (PyVal.str s)) = _ ∧ _
    unfold normalize_post_text
    by_cases hs : pyStrip s = ""
    · have h := randomChoice_fallback_clean seed
      simpa [hs] using ⟨h.1, h.2.1⟩
    · simpa [hs] using pyStrip_clean_of_ne hs
  · exact tryKeys_clean seed entries _
  · have h := randomChoice_fallback_clean seed
    exact ⟨h.1, h.2.1⟩

/-! ### Run anatomy -/

/-- The text selected by the generation step before the clamp (the value
of `post_text` after `normalize_post_text`, for a successful history
fetch): the fallback-vs-generated decision is contained in
`normalize_post_text` and happens on the un-truncated text. -/
def chosenText (env : Env) (previous_posts : String) : String :=
  normalize_post_text env.seed
    (AutoPostService.safe_chat env.chat (buildMessages previous_posts))

/-- The clamped text handed to `TwitterClient.post`. -/
def publishedText (env : Env) (previous_posts : String) : String :=
  pyRstrip (pyTake MAX_CHARS (chosenText env previous_posts))

/-- The quota gate lets the run proceed. -/
def gatePasses (env : Env) : Prop :=
  env.tierManager = none ∨ ∃ tm, env.tierManager = some tm ∧ tm.allowed = true

lemma run_of_gatePasses {env : Env} (h : gatePasses env) :
    AutoPostService.run env = runBody env (round1 env.elapsed) := by
  unfold AutoPostService.run
  rcases h with h | ⟨tm, h, ha⟩
  · rw [h]
  · rw [h]
    simp [ha]

lemma run_denied {env : Env} {tm : TierManager} (h : env.tierManager = some tm)
    (ha : tm.allowed = false) :
    AutoPostService.run env = (blockedResult tm, ⟨0, 0, [], [], []⟩) := by
  unfold AutoPostService.run
  rw [h]
  simp [ha]

lemma runBody_fetch_error (env : Env) (duration : ℚ) {e : String}
    (h : env.getRecentPosts = Except.error e) :
    runBody env duration = (failResult e duration, ⟨0, 1, [], [], []⟩) := by
  unfold runBody
  rw [h]

lemma runBody_ok (env : Env) (duration : ℚ) {previous : String}
    (h : env.getRecentPosts = Except.ok previous) :
    runBody env duration =
      publishStage env.createTweet env.savePost duration (publishedText env previous) := by
  unfold runBody
  rw [h]
  have hc := normalize_clean env.seed
    (AutoPostService.safe_chat env.chat (buildMessages previous))
  simp only [hc.1, if_neg hc.2]
  rfl

lemma publishedText_strip_ne (env : Env) (previous : String) :
    pyStrip (publishedText env previous) ≠ "" := by
  have hc := normalize_clean env.seed
    (AutoPostService.safe_chat env.chat (buildMessages previous))
  exact pyStrip_rstrip_take_ne_empty hc.1 hc.2 MAX_CHARS (by decide)

lemma publishedText_len_le (env : Env) (previous : String) :
    pyLen (publishedText env previous) ≤ MAX_CHARS :=
  pyLen_rstrip_take_le MAX_CHARS (chosenText env previous)

lemma publishStage_postedTexts (ct : String → Except String (List (String × String)))
    (sp : String → String → Except String Unit) (duration : ℚ) (t : String) :
    (publishStage ct sp duration t).2.postedTexts = [t] := by
  unfold publishStage
  rcases TwitterClient.post ct t with e | td
  · rfl
  · dsimp only
    split
    · rfl
    · rcases sp t ((td.lookup "id").getD "") with e | u
      · rfl
      · rfl

lemma clean_publish_fix {f : String} (hc : cleanText f) :
    pyRstrip (pyTake MAX_CHARS f) = f := by
  obtain ⟨hstrip, -, hlen⟩ := hc
  have hdata : stripL f.data = f.data := by
    have := congrArg String.data hstrip
    simpa [pyStrip_data] using this
  have htake : f.data.take MAX_CHARS = f.data := List.take_of_length_le hlen
  have hl : lstripL f.data = f.data := by
    conv in lstripL _ => rw [← hdata]
    rw [lstripL_stripL, hdata]
  have hr : rstripL f.data = f.data := by
    have h1 : stripL (stripL f.data) = stripL f.data := stripL_idem f.data
    rw [hdata] at h1
    show rstripL f.data = f.data
    calc rstripL f.data = rstripL (lstripL f.data) := by rw [hl]
      _ = stripL f.data := rfl
      _ = f.data := hdata
  show (⟨rstripL (f.data.take MAX_CHARS)⟩ : String) = f
  rw [htake, hr]

lemma publishStage_cases (ct : String → Except String (List (String × String)))
    (sp : String → String → Except String Unit) (duration : ℚ) (t : String) :
    (∃ e, (publishStage ct sp duration t).1 = failResult e duration ∧
          (publishStage ct sp duration t).2.savedPosts = []) ∨
    (∃ i e, (publishStage ct sp duration t).1 = failResult e duration ∧
          (publishStage ct sp duration t).2.savedPosts = [(t, i)]) ∨
    (∃ i, (publishStage ct sp duration t).1 = successResult i t duration ∧
          (publishStage ct sp duration t).2.savedPosts = [(t, i)]) := by
  unfold publishStage
  rcases TwitterClient.post ct t with e | td
  · exact Or.inl ⟨e, rfl, rfl⟩
  · dsimp only
    split
    · exact Or.inl ⟨_, rfl, rfl⟩
    · rcases sp t ((td.lookup "id").getD "") with e | u
      · exact Or.inr (Or.inl ⟨_, e, rfl, rfl⟩)
      · exact Or.inr (Or.inr ⟨_, rfl, rfl⟩)

lemma publishStage_saved_le (ct : String → Except String (List (String × String)))
    (sp : String → String → Except String Unit) (duration : ℚ) (t : String) :
    (publishStage ct sp duration t).2.savedPosts.length ≤ 1 := by
  rcases publishStage_cases ct sp duration t with ⟨e, -, h⟩ | ⟨i, e, -, h⟩ | ⟨i, -, h⟩ <;>
    simp [h]

lemma publishStage_saved_id (ct : String → Except String (List (String × String)))
    (sp : String → String → Except String Unit) (duration : ℚ) (t : String) :
    ∀ r ∈ (publishStage ct sp duration t).2.savedPosts,
      ∃ resp ∈ (publishStage ct sp duration t).2.postResponses,
        resp.lookup "id" = some r.2 ∧ r.1 = t := by
  unfold publishStage
  rcases TwitterClient.post ct t with e | td
  · simp
  · dsimp only
    split
    · simp
    · rename_i hcond
      rw [Bool.or_eq_true, not_or] at hcond
      obtain ⟨-, hni⟩ := hcond
      rcases hl : td.lookup "id" with - | i
      · rw [hl] at hni
        simp at hni
      · rcases sp t ((some i).getD "") with e | u <;>
        · intro r hr
          simp only [List.mem_singleton] at hr
          subst hr
          exact ⟨td, by simp, by simp [hl]⟩

lemma publishStage_invalid (ct : String → Except String (List (String × String)))
    (sp : String → String → Except String Unit) (duration : ℚ) (t : String)
    {d : List (String × String)} (hct : ∀ u, ct u = Except.ok d)
    (hbad : d = [] ∨ d.lookup "id" = none) :
    ((publishStage ct sp duration t).1.lookup "success" = some (RVal.bool false)) ∧
    (publishStage ct sp duration t).2.savedPosts = [] := by
  have hcond : (d.isEmpty || (d.lookup "id").isNone) = true := by
    rcases hbad with rfl | h
    · simp
    · simp [h]
  unfold publishStage TwitterClient.post
  by_cases ht : pyStrip t = ""
  · simp only [ht, if_pos rfl]
    exact ⟨rfl, rfl⟩
  · simp only [if_neg ht, hct]
    rw [if_pos hcond]
    exact ⟨rfl, rfl⟩

lemma publishStage_success (ct : String → Except String (List (String × String)))
    (sp : String → String → Except String Unit) (duration : ℚ) (t : String)
    {d : List (String × String)} {i : String}
    (hne : pyStrip t ≠ "")
    (hct : ∀ u, ct u = Except.ok d) (hid : d.lookup "id" = some i)
    (hsp : ∀ u j, sp u j = Except.ok ()) :
    (publishStage ct sp duration t).1 = successResult i t duration ∧
    (publishStage ct sp duration t).2.savedPosts = [(t, i)] := by
  have hnil : d ≠ [] := by
    rintro rfl
    simp [List.lookup] at hid
  have hcond : (d.isEmpty || (d.lookup "id").isNone) = false := by
    simp [hid, hnil]
  unfold publishStage TwitterClient.post
  simp only [if_neg hne, hct]
  rw [if_neg (by simp [hcond])]
  simp only [hsp, hid]
  exact ⟨rfl, rfl⟩

/-! ### Result dict lookups -/

lemma failResult_lookup_success (e : String) (d : ℚ) :
    (failResult e d).lookup "success" = some (RVal.bool false) := rfl

lemma failResult_lookup_error (e : String) (d : ℚ) :
    (failResult e d).lookup "error" = some (RVal.str e) := rfl

lemma failResult_lookup_duration (e : String) (d : ℚ) :
    (failResult e d).lookup "duration_seconds" = some (RVal.num d) := rfl

lemma successResult_lookup_success (i t : String) (d : ℚ) :
    (successResult i t d).lookup "success" = some (RVal.bool true) := rfl

lemma successResult_lookup_text (i t : String) (d : ℚ) :
    (successResult i t d).lookup "text" = some (RVal.str t) := rfl

lemma successResult_lookup_duration (i t : String) (d : ℚ) :
    (successResult i t d).lookup "duration_seconds" = some (RVal.num d) := rfl

lemma blockedResult_lookup_success (tm : TierManager) :
    (blockedResult tm).lookup "success" = some (RVal.bool false) := rfl

lemma blockedResult_lookup_error (tm : TierManager) :
    (blockedResult tm).lookup "error"
      = some (RVal.str ("posting_blocked: " ++ tm.reason)) := rfl

lemma blockedResult_lookup_tier (tm : TierManager) :
    (blockedResult tm).lookup "tier" = some (RVal.str tm.tier) := rfl

lemma blockedResult_lookup_usage (tm : TierManager) :
    (blockedResult tm).lookup "usage_percent" = some (RVal.num tm.usagePercent) := rfl

lemma blockedResult_lookup_duration (tm : TierManager) :
    (blockedResult tm).lookup "duration_seconds" = none := rfl

/-! ### Concrete environments (for witnesses and counterexamples) -/

/-- A denying tier manager. -/
def tmDeny : TierManager := ⟨false, "daily limit reached", "free", 50⟩

/-- A fully healthy environment: no tier manager, history fetch returns
"none", the generator returns the string "gm traders", the platform
returns id "123", persistence succeeds. -/
def envBase : Env :=
  ⟨none, Except.ok "none", fun _ => Except.ok (PyVal.str "gm traders"),
   fun _ => Except.ok [("id", "123")], fun _ _ => Except.ok (), 0, 0, 0⟩

/-- `envBase` with a denying tier manager. -/
def envDenied : Env := { envBase with tierManager := some tmDeny }

/-- `envBase` whose generator raises on every call. -/
def envChatFails : Env := { envBase with chat := fun _ => Except.error "LLM down" }

/-- `envBase` whose history fetch raises. -/
def envDbFails : Env := { envBase with getRecentPosts := Except.error "db down" }

/-- `envBase` whose platform post returns an empty response dict. -/
def envBadResponse : Env := { envBase with createTweet := fun _ => Except.ok [] }

lemma envBase_postedTexts :
    (AutoPostService.run envBase).2.postedTexts = ["gm traders"] := by
  have h : runBody envBase (round1 envBase.elapsed)
      = publishStage envBase.createTweet envBase.savePost
          (round1 envBase.elapsed) (publishedText envBase "none") :=
    runBody_ok envBase (round1 envBase.elapsed) rfl
  have hp : publishedText envBase "none" = "gm traders" := rfl
  rw [run_of_gatePasses (Or.inl rfl), h, hp]
  exact publishStage_postedTexts _ _ _ _

/-! ### Claims -/

/-- C6: for every generator output value (string, dict with a known
text-bearing key, or malformed/empty value), `normalize_post_text` is
total (never raises) and yields a non-empty trimmed string — hence
always satisfies the spec's "non-empty trimmed string or explicit
no-result" disjunction. -/
theorem C6_normalize_total_trimmed (seed : Nat) (raw : PyVal) :
    normalize_post_text seed raw ≠ "" ∧
    pyStrip (normalize_post_text seed raw) = normalize_post_text seed raw :=
  ⟨(normalize_clean seed raw).2, (normalize_clean seed raw).1⟩

/-- C2: every text handed to the platform client by `run()` is within
the hard 250-character limit, and every pre-written fallback tweet also
satisfies the limit. -/
theorem C2_published_within_limit (env : Env) :
    (∀ t ∈ (AutoPostService.run env).2.postedTexts, pyLen t ≤ MAX_CHARS) ∧
    (∀ f ∈ FALLBACK_TWEETS, pyLen f ≤ MAX_CHARS) := by
  constructor
  · intro t ht
    rcases henv : env.tierManager with - | tm
    · rw [run_of_gatePasses (Or.inl henv)] at ht
      rcases hdb : env.getRecentPosts with e | prev
      · rw [runBody_fetch_error env _ hdb] at ht
        simp at ht
      · rw [runBody_ok env _ hdb, publishStage_postedTexts] at ht
        simp only [List.mem_singleton] at ht
        subst ht
        exact publishedText_len_le env prev
    · rcases ha : tm.allowed with - | -
      · rw [run_denied henv ha] at ht
        simp at ht
      · rw [run_of_gatePasses (Or.inr ⟨tm, henv, ha⟩)] at ht
        rcases hdb : env.getRecentPosts with e | prev
        · rw [runBody_fetch_error env _ hdb] at ht
          simp at ht
        · rw [runBody_ok env _ hdb, publishStage_postedTexts] at ht
          simp only [List.mem_singleton] at ht
          subst ht
          exact publishedText_len_le env prev
  · intro f hf
    exact (fallback_all_clean f hf).2.2

/-- C2 witness: a concrete healthy run publishes "gm traders", which is
within the limit, and the last fallback tweet is within the limit. -/
theorem C2_witness :
    pyLen "gm traders" ≤ MAX_CHARS ∧
    pyLen "the plan was simple. the execution wasn’t. the result was predictable."
      ≤ MAX_CHARS :=
  ⟨(C2_published_within_limit envBase).1 "gm traders"
      (by rw [envBase_postedTexts]; simp),
   (C2_published_within_limit envBase).2 _ (by simp [FALLBACK_TWEETS])⟩

/-- C3: when the tier manager denies, `run()` returns the blocked
result (success false, error carrying the reason, tier and usage
metrics) and performs no further work: no generator call, no platform
call, no history fetch, no persistence write. -/
theorem C3_denial_zero_side_effects (env : Env) (tm : TierManager)
    (h : env.tierManager = some tm) (ha : tm.allowed = false) :
    (AutoPostService.run env).1.lookup "success" = some (RVal.bool false) ∧
    (AutoPostService.run env).1.lookup "error"
      = some (RVal.str ("posting_blocked: " ++ tm.reason)) ∧
    (AutoPostService.run env).1.lookup "tier" = some (RVal.str tm.tier) ∧
    (AutoPostService.run env).1.lookup "usage_percent"
      = some (RVal.num tm.usagePercent) ∧
    (AutoPostService.run env).2.chatCalls = 0 ∧
    (AutoPostService.run env).2.postedTexts = [] ∧
    (AutoPostService.run env).2.dbFetches = 0 ∧
    (AutoPostService.run env).2.savedPosts = [] := by
  rw [run_denied h ha]
  exact ⟨rfl, rfl, rfl, rfl, rfl, rfl, rfl, rfl⟩

/-- C3 witness: the denial short-circuit at a concrete denying
environment. -/
theorem C3_witness :
    (AutoPostService.run envDenied).1.lookup "success" = some (RVal.bool false) ∧
    (AutoPostService.run envDenied).2.chatCalls = 0 ∧
    (AutoPostService.run envDenied).2.postedTexts = [] :=
  ⟨(C3_denial_zero_side_effects envDenied tmDeny rfl rfl).1,
   (C3_denial_zero_side_effects envDenied tmDeny rfl rfl).2.2.2.2.1,
   (C3_denial_zero_side_effects envDenied tmDeny rfl rfl).2.2.2.2.2.1⟩

/-- C8 counterexample: with a raising history fetch (and no quota
gate), `run()` does **not** degrade to an empty-history context — it
makes no generator call and no platform call, and returns a failure
result, contradicting the claimed degrade-and-proceed behaviour. -/
theorem C8_counterexample :
    (AutoPostService.run envDbFails).1 = failResult "db down" (round1 0) ∧
    (AutoPostService.run envDbFails).2.chatCalls = 0 ∧
    (AutoPostService.run envDbFails).2.postedTexts = [] := by
  rw [run_of_gatePasses (Or.inl rfl), runBody_fetch_error envDbFails _ rfl]
  exact ⟨rfl, rfl, rfl⟩

/-- C8 (amended): if the history fetch raises, the run is aborted by the
top-level failure boundary: no generation and no publish occur, and
`run()` returns (rather than raises) a failure result carrying the error
message and the rounded duration. -/
theorem C8_db_failure_aborts (env : Env) (e : String)
    (hg : gatePasses env) (hdb : env.getRecentPosts = Except.error e) :
    (AutoPostService.run env).1 = failResult e (round1 env.elapsed) ∧
    (AutoPostService.run env).2.chatCalls = 0 ∧
    (AutoPostService.run env).2.postedTexts = [] ∧
    (AutoPostService.run env).2.savedPosts = [] := by
  rw [run_of_gatePasses hg, runBody_fetch_error env _ hdb]
  exact ⟨rfl, rfl, rfl, rfl⟩

/-- C8 witness: the amended behaviour at a concrete environment whose
history fetch raises. -/
theorem C8_witness :
    (AutoPostService.run envDbFails).1 = failResult "db down" (round1 (0 : ℚ)) :=
  (C8_db_failure_aborts envDbFails "db down" (Or.inl rfl) rfl).1

/-- C1 counterexample: the quota-denied result returned by `run()` has
no `duration_seconds` field at all (it carries tier and usage metrics
instead), refuting "every returned result … carries such a
duration_seconds field". -/
theorem C1_counterexample :
    (AutoPostService.run envDenied).1.lookup "duration_seconds" = none ∧
    (AutoPostService.run envDenied).1.lookup "success" = some (RVal.bool false) := by
  rw [@run_denied envDenied tmDeny rfl rfl]
  exact ⟨rfl, rfl⟩

/-- C1 (amended): `run()` is total — for every collaborator behaviour,
including any collaborator raising at any step, it returns a structured
result dict with a boolean `success` field, and never raises.  Whenever
the quota gate does not short-circuit the run, the result (success or
failure) carries `duration_seconds` equal to the elapsed wall-clock
duration rounded to one decimal place of a second (a multiple of 1/10),
and a result that is not a success carries the error message.  The
quota-denied result alone carries no `duration_seconds` field, reporting
the reason, tier and usage metrics instead. -/
theorem C1_run_structured (env : Env) :
    (∃ b, (AutoPostService.run env).1.lookup "success" = some (RVal.bool b)) ∧
    (gatePasses env →
      (AutoPostService.run env).1.lookup "duration_seconds"
        = some (RVal.num (round1 env.elapsed)) ∧
      (∃ z : ℤ, round1 env.elapsed = (z : ℚ) / 10) ∧
      ((AutoPostService.run env).1.lookup "success" = some (RVal.bool true) ∨
        ∃ e, (AutoPostService.run env).1.lookup "error" = some (RVal.str e))) ∧
    (∀ tm, env.tierManager = some tm → tm.allowed = false →
      (AutoPostService.run env).1 = blockedResult tm) := by
  have hz : ∃ z : ℤ, round1 env.elapsed = (z : ℚ) / 10 :=
    ⟨round (env.elapsed * 10), rfl⟩
  have hbody : gatePasses env →
      (AutoPostService.run env).1.lookup "duration_seconds"
        = some (RVal.num (round1 env.elapsed)) ∧
      (∃ z : ℤ, round1 env.elapsed = (z : ℚ) / 10) ∧
      ((AutoPostService.run env).1.lookup "success" = some (RVal.bool true) ∨
        ∃ e, (AutoPostService.run env).1.lookup "error" = some (RVal.str e)) := by
    intro hg
    rw [run_of_gatePasses hg]
    rcases hdb : env.getRecentPosts with e | prev
    · rw [runBody_fetch_error env _ hdb]
      exact ⟨rfl, hz, Or.inr ⟨e, rfl⟩⟩
    · rw [runBody_ok env _ hdb]
      rcases publishStage_cases env.createTweet env.savePost (round1 env.elapsed)
          (publishedText env prev) with ⟨e, hr, -⟩ | ⟨i, e, hr, -⟩ | ⟨i, hr, -⟩
      · rw [hr]
        exact ⟨rfl, hz, Or.inr ⟨e, rfl⟩⟩
      · rw [hr]
        exact ⟨rfl, hz, Or.inr ⟨e, rfl⟩⟩
      · rw [hr]
        exact ⟨rfl, hz, Or.inl rfl⟩
  refine ⟨?_, hbody, ?_⟩
  · rcases henv : env.tierManager with - | tm
    · obtain ⟨-, -, h⟩ := hbody (Or.inl henv)
      rcases h with h | ⟨e, -⟩
      · exact ⟨true, h⟩
      · rcases hdb : env.getRecentPosts with e' | prev
        · rw [run_of_gatePasses (Or.inl henv), runBody_fetch_error env _ hdb]
          exact ⟨false, rfl⟩
        · rw [run_of_gatePasses (Or.inl henv), runBody_ok env _ hdb]
          rcases publishStage_cases env.createTweet env.savePost (round1 env.elapsed)
              (publishedText env prev) with ⟨e', hr, -⟩ | ⟨i, e', hr, -⟩ | ⟨i, hr, -⟩
          · exact ⟨false, by rw [hr]; rfl⟩
          · exact ⟨false, by rw [hr]; rfl⟩
          · exact ⟨true, by rw [hr]; rfl⟩
    · rcases ha : tm.allowed with - | -
      · rw [run_denied henv ha]
        exact ⟨false, rfl⟩
      · rcases hdb : env.getRecentPosts with e' | prev
        · rw [run_of_gatePasses (Or.inr ⟨tm, henv, ha⟩), runBody_fetch_error env _ hdb]
          exact ⟨false, rfl⟩
        · rw [run_of_gatePasses (Or.inr ⟨tm, henv, ha⟩), runBody_ok env _ hdb]
          rcases publishStage_cases env.createTweet env.savePost (round1 env.elapsed)
              (publishedText env prev) with ⟨e', hr, -⟩ | ⟨i, e', hr, -⟩ | ⟨i, hr, -⟩
          · exact ⟨false, by rw [hr]; rfl⟩
          · exact ⟨false, by rw [hr]; rfl⟩
          · exact ⟨true, by rw [hr]; rfl⟩
  · intro tm h ha
    rw [run_denied h ha]

/-- C1 witness: at a concrete healthy environment the gate passes and
the returned result carries the rounded duration. -/
theorem C1_witness :
    (AutoPostService.run envBase).1.lookup "duration_seconds"
      = some (RVal.num (round1 (0 : ℚ))) :=
  ((C1_run_structured envBase).2.1 (Or.inl rfl)).1

/-- Every run is a quota denial, a history-fetch failure, or a publish
stage on the clamped chosen text. -/
lemma run_cases (env : Env) :
    (∃ tm, env.tierManager = some tm ∧ tm.allowed = false ∧
      AutoPostService.run env = (blockedResult tm, ⟨0, 0, [], [], []⟩)) ∨
    (∃ e, AutoPostService.run env
        = (failResult e (round1 env.elapsed), ⟨0, 1, [], [], []⟩)) ∨
    (∃ prev, env.getRecentPosts = Except.ok prev ∧
      AutoPostService.run env
        = publishStage env.createTweet env.savePost (round1 env.elapsed)
            (publishedText env prev)) := by
  have hpass : gatePasses env →
      (∃ e, AutoPostService.run env
          = (failResult e (round1 env.elapsed), ⟨0, 1, [], [], []⟩)) ∨
      (∃ prev, env.getRecentPosts = Except.ok prev ∧
        AutoPostService.run env
          = publishStage env.createTweet env.savePost (round1 env.elapsed)
              (publishedText env prev)) := by
    intro hg
    rcases hdb : env.getRecentPosts with e | prev
    · exact Or.inl ⟨e, by rw [run_of_gatePasses hg, runBody_fetch_error env _ hdb]⟩
    · exact Or.inr ⟨prev, rfl, by rw [run_of_gatePasses hg, runBody_ok env _ hdb]⟩
  rcases henv : env.tierManager with - | tm
  · exact Or.inr (hpass (Or.inl henv))
  · rcases ha : tm.allowed with - | -
    · exact Or.inl ⟨tm, rfl, ha, run_denied henv ha⟩
    · exact Or.inr (hpass (Or.inr ⟨tm, henv, ha⟩))

/-- C4: if the generator raises on every call (with the gate passing,
the history fetch succeeding, the platform returning an id, persistence
succeeding), `run()` still returns a well-formed success result whose
text is drawn from the Fallback Pool. -/
theorem C4_generator_failure (env : Env) (previous : String)
    (d : List (String × String)) (i : String)
    (hg : gatePasses env) (hdb : env.getRecentPosts = Except.ok previous)
    (hchat : ∀ ms, ∃ err, env.chat ms = Except.error err)
    (hct : ∀ t, env.createTweet t = Except.ok d) (hid : d.lookup "id" = some i)
    (hsp : ∀ t j, env.savePost t j = Except.ok ()) :
    (AutoPostService.run env).1.lookup "success" = some (RVal.bool true) ∧
    ∃ f ∈ FALLBACK_TWEETS,
      (AutoPostService.run env).1.lookup "text" = some (RVal.str f) ∧
      (AutoPostService.run env).2.postedTexts = [f] := by
  obtain ⟨err, herr⟩ := hchat (buildMessages previous)
  have hchosen : chosenText env previous = randomChoice env.seed FALLBACK_TWEETS := by
    unfold chosenText AutoPostService.safe_chat
    rw [herr]
    rfl
  have hclean : cleanText (randomChoice env.seed FALLBACK_TWEETS) :=
    randomChoice_fallback_clean env.seed
  have hpub : publishedText env previous = randomChoice env.seed FALLBACK_TWEETS := by
    unfold publishedText
    rw [hchosen]
    exact clean_publish_fix hclean
  have hne : pyStrip (randomChoice env.seed FALLBACK_TWEETS) ≠ "" := by
    rw [hclean.1]
    exact hclean.2.1
  have hps := publishStage_success env.createTweet env.savePost (round1 env.elapsed)
    (randomChoice env.seed FALLBACK_TWEETS) hne hct hid hsp
  have hrun : AutoPostService.run env
      = publishStage env.createTweet env.savePost (round1 env.elapsed)
          (randomChoice env.seed FALLBACK_TWEETS) := by
    rw [run_of_gatePasses hg, runBody_ok env _ hdb, hpub]
  rw [hrun]
  refine ⟨by rw [hps.1]; rfl,
    randomChoice env.seed FALLBACK_TWEETS, randomChoice_fallback_mem env.seed,
    by rw [hps.1]; rfl, publishStage_postedTexts _ _ _ _⟩

/-- C4 witness: a concrete environment whose generator always raises
still succeeds. -/
theorem C4_witness :
    (AutoPostService.run envChatFails).1.lookup "success" = some (RVal.bool true) :=
  (C4_generator_failure envChatFails "none" [("id", "123")] "123" (Or.inl rfl) rfl
    (fun _ => ⟨"LLM down", rfl⟩) (fun _ => rfl) rfl (fun _ _ => rfl)).1

/-- C5: if the platform post call returns a response that is empty or
lacks an "id" field, `run()` returns a failure result and `save_post` is
never called; and in every run at most one Post Record is created, and
only with the identifier of a received post response. -/
theorem C5_no_record_on_invalid_response (env : Env) (d : List (String × String)) :
    ((∀ t, env.createTweet t = Except.ok d) → (d = [] ∨ d.lookup "id" = none) →
      (AutoPostService.run env).1.lookup "success" = some (RVal.bool false) ∧
      (AutoPostService.run env).2.savedPosts = []) ∧
    (AutoPostService.run env).2.savedPosts.length ≤ 1 ∧
    (∀ r ∈ (AutoPostService.run env).2.savedPosts,
      ∃ resp ∈ (AutoPostService.run env).2.postResponses,
        resp.lookup "id" = some r.2) := by
  rcases run_cases env with ⟨tm, -, -, hrun⟩ | ⟨e, hrun⟩ | ⟨prev, -, hrun⟩
  · rw [hrun]
    exact ⟨fun _ _ => ⟨rfl, rfl⟩, by simp, by simp⟩
  · rw [hrun]
    exact ⟨fun _ _ => ⟨rfl, rfl⟩, by simp, by simp⟩
  · rw [hrun]
    refine ⟨fun hct hbad => publishStage_invalid _ _ _ _ hct hbad,
      publishStage_saved_le _ _ _ _, ?_⟩
    intro r hr
    obtain ⟨resp, hresp, hidr, -⟩ := publishStage_saved_id env.createTweet
      env.savePost (round1 env.elapsed) (publishedText env prev) r hr
    exact ⟨resp, hresp, hidr⟩

/-- C5 witness: a concrete environment whose platform returns an empty
response dict yields a failure and persists nothing. -/
theorem C5_witness :
    (AutoPostService.run envBadResponse).1.lookup "success"
      = some (RVal.bool false) ∧
    (AutoPostService.run envBadResponse).2.savedPosts = [] :=
  (C5_no_record_on_invalid_response envBadResponse []).1 (fun _ => rfl) (Or.inl rfl)

/-- C7: in simple mode the clamp is applied only after the text is
chosen: the published text equals the chosen (fallback-vs-generated
decision on the un-truncated text, inside `normalize_post_text`) text
truncated to 250 characters and stripped of trailing whitespace; and the
run is independent of the post-selection fallback draw (`seed2`), so
truncation never causes a fallback to be selected. -/
theorem C7_clamp_after_selection (env : Env) (previous : String)
    (hg : gatePasses env) (hdb : env.getRecentPosts = Except.ok previous) :
    (AutoPostService.run env).2.postedTexts
      = [pyRstrip (pyTake MAX_CHARS (chosenText env previous))] ∧
    (∀ k : Nat, AutoPostService.run { env with seed2 := k } = AutoPostService.run env) := by
  constructor
  · rw [run_of_gatePasses hg, runBody_ok env _ hdb]
    exact publishStage_postedTexts _ _ _ _
  · intro k
    have hg' : gatePasses { env with seed2 := k } := by
      rcases hg with h | ⟨tm, h, ha⟩
      · exact Or.inl h
      · exact Or.inr ⟨tm, h, ha⟩
    have hdb' : ({ env with seed2 := k } : Env).getRecentPosts = Except.ok previous := hdb
    rw [run_of_gatePasses hg', run_of_gatePasses hg,
        runBody_ok _ _ hdb', runBody_ok env _ hdb]
    rfl

/-- C7 witness: the concrete healthy run publishes exactly the clamp of
its chosen text. -/
theorem C7_witness :
    (AutoPostService.run envBase).2.postedTexts
      = [pyRstrip (pyTake MAX_CHARS (chosenText envBase "none"))] :=
  (C7_clamp_after_selection envBase "none" (Or.inl rfl) rfl).1

/-- C10: every text `run()` hands to `TwitterClient.post` is non-empty
even after stripping, so the `ValueError` branch rejecting an empty
tweet is unreachable from `run()` — the call always goes through to
`create_tweet`; and every fallback tweet is non-empty and
strip-invariant (non-whitespace first character). -/
theorem C10_no_empty_tweet (env : Env) :
    (∀ t ∈ (AutoPostService.run env).2.postedTexts,
      pyStrip t ≠ "" ∧
      TwitterClient.post env.createTweet t = env.createTweet (pyStrip t)) ∧
    (∀ f ∈ FALLBACK_TWEETS, pyStrip f = f ∧ f ≠ "") := by
  constructor
  · intro t ht
    rcases run_cases env with ⟨tm, -, -, hrun⟩ | ⟨e, hrun⟩ | ⟨prev, -, hrun⟩
    · rw [hrun] at ht
      simp at ht
    · rw [hrun] at ht
      simp at ht
    · rw [hrun, publishStage_postedTexts] at ht
      simp only [List.mem_singleton] at ht
      subst ht
      have hne := publishedText_strip_ne env prev
      refine ⟨hne, ?_⟩
      simp only [TwitterClient.post, if_neg hne]
  · intro f hf
    exact ⟨(fallback_all_clean f hf).1, (fallback_all_clean f hf).2.1⟩

/-- C10 witness: the concrete published text strips to a non-empty
string. -/
theorem C10_witness : pyStrip "gm traders" ≠ "" :=
  ((C10_no_empty_tweet envBase).1 "gm traders"
    (by rw [envBase_postedTexts]; simp)).1

/-! ### Agentic mode (modelled from the spec) -/

/-- Modelled from the spec: one step of the generator-produced Plan in
agentic mode (§4.4): each step names a tool (a step without a `tool` key
behaves as a skipped tool) and carries a parameter mapping.  The agentic
orchestrator is not present under src/. -/
structure AgentStep where
  tool : Option String
  params : List (String × String)

/-- Modelled from the spec: executing one plan step (§4.4 step 2,
§4.5): if the named tool exists in the registry, invoke it and append a
user-role message with its result; then a reaction request fires and its
reasoning is appended as an assistant turn regardless of whether a tool
was invoked; unknown names are not invoked and do not raise.  Returns
the appended messages and the number of tool invocations (0 or 1). -/
def execStep (registry : List (String × (List (String × String) → String)))
    (reaction : String) (step : AgentStep) : List (String × String) × Nat :=
  match step.tool with
  | some name =>
    match registry.lookup name with
    | some tool => ([("user", tool step.params), ("assistant", reaction)], 1)
    | Option.none => ([("assistant", reaction)], 0)
  | Option.none => ([("assistant", reaction)], 0)

/-- Modelled from the spec: the Tool Execution Loop over the whole plan,
in order (§4.4 step 2), returning the messages appended to the
Generation Request, the total number of tool invocations, and the number
of reaction requests fired (one per step). -/
def execPlan (registry : List (String × (List (String × String) → String)))
    (reactions : Nat → String) : List AgentStep → Nat →
      List (String × String) × Nat × Nat
  | [], _ => ([], 0, 0)
  | step :: rest, idx =>
    let out := execStep registry (reactions idx) step
    let tail := execPlan registry reactions rest (idx + 1)
    (out.1 ++ tail.1, out.2 + tail.2.1, 1 + tail.2.2)

/-- Modelled from the spec: the collaborators of one agentic-mode run
(§4.4): the tool registry, the generator-produced plan, the reaction
responses, the final post-text structured response, the fallback draw,
and the platform/persistence collaborators shared with simple mode. -/
structure AgentEnv where
  registry : List (String × (List (String × String) → String))
  plan : List AgentStep
  reactions : Nat → String
  postText : String
  seed : Nat
  createTweet : String → Except String (List (String × String))
  savePost : String → String → Except String Unit

/-- Modelled from the spec: the agentic-mode run (§4.4 steps 2–4):
execute the plan through the Tool Execution Loop, extract and trim the
post-text response, select a fallback uniformly at random if it is
empty, then publish and persist exactly as in simple mode.  Returns the
loop outcome together with the publish outcome. -/
def agenticRun (aenv : AgentEnv) :
    (List (String × String) × Nat × Nat) × (RDict × Trace) :=
  let loop := execPlan aenv.registry aenv.reactions aenv.plan 0
  let text := pyStrip aenv.postText
  let final := if text = "" then randomChoice aenv.seed FALLBACK_TWEETS else text
  (loop, publishStage aenv.createTweet aenv.savePost 0 final)

/-- C9: in agentic mode, a plan step naming a tool absent from the
registry is silently skipped — no tool invocation, no tool-result
message appended — but its reaction request still fires; with an empty
post-text response the run then selects a fallback, publishes it and
persists the Post Record. -/
theorem C9_unregistered_tool_skipped (aenv : AgentEnv) (name : String)
    (params : List (String × String)) (d : List (String × String)) (i : String)
    (hplan : aenv.plan = [⟨some name, params⟩])
    (hreg : aenv.registry.lookup name = none)
    (hpt : aenv.postText = "")
    (hct : ∀ t, aenv.createTweet t = Except.ok d) (hid : d.lookup "id" = some i)
    (hsp : ∀ t j, aenv.savePost t j = Except.ok ()) :
    (agenticRun aenv).1.1 = [("assistant", aenv.reactions 0)] ∧
    (agenticRun aenv).1.2.1 = 0 ∧
    (agenticRun aenv).1.2.2 = 1 ∧
    ∃ f ∈ FALLBACK_TWEETS,
      (agenticRun aenv).2.1.lookup "success" = some (RVal.bool true) ∧
      (agenticRun aenv).2.1.lookup "text" = some (RVal.str f) ∧
      (agenticRun aenv).2.2.savedPosts = [(f, i)] := by
  have hloop : execPlan aenv.registry aenv.reactions aenv.plan 0
      = ([("assistant", aenv.reactions 0)], 0, 1) := by
    rw [hplan]
    simp [execPlan, execStep, hreg]
  have hfinal : (if pyStrip aenv.postText = ""
        then randomChoice aenv.seed FALLBACK_TWEETS else pyStrip aenv.postText)
      = randomChoice aenv.seed FALLBACK_TWEETS := by
    rw [hpt]
    rfl
  have hrun : agenticRun aenv
      = (([("assistant", aenv.reactions 0)], 0, 1),
         publishStage aenv.createTweet aenv.savePost 0
           (randomChoice aenv.seed FALLBACK_TWEETS)) := by
    simp only [agenticRun]
    rw [hloop, hfinal]
  have hclean : cleanText (randomChoice aenv.seed FALLBACK_TWEETS) :=
    randomChoice_fallback_clean aenv.seed
  have hne : pyStrip (randomChoice aenv.seed FALLBACK_TWEETS) ≠ "" := by
    rw [hclean.1]
    exact hclean.2.1
  have hps := publishStage_success aenv.createTweet aenv.savePost 0
    (randomChoice aenv.seed FALLBACK_TWEETS) hne hct hid hsp
  rw [hrun]
  exact ⟨rfl, rfl, rfl, randomChoice aenv.seed FALLBACK_TWEETS,
    randomChoice_fallback_mem aenv.seed,
    by rw [hps.1]; rfl, by rw [hps.1]; rfl, hps.2⟩

/-- A concrete agentic environment: empty registry, one plan step naming
"generate_image", empty post-text response. -/
def aenvSkip : AgentEnv :=
  ⟨[], [⟨some "generate_image", []⟩], fun _ => "noted", "", 0,
   fun _ => Except.ok [("id", "123")], fun _ _ => Except.ok ()⟩

/-- C9 witness: the skip behaviour at the concrete agentic
environment. -/
theorem C9_witness :
    (agenticRun aenvSkip).1.2.1 = 0 ∧
    (agenticRun aenvSkip).1.2.2 = 1 ∧
    (agenticRun aenvSkip).2.1.lookup "success" = some (RVal.bool true) := by
  have h := C9_unregistered_tool_skipped aenvSkip "generate_image" [] [("id", "123")]
    "123" rfl rfl rfl (fun _ => rfl) rfl (fun _ _ => rfl)
  obtain ⟨-, h2, h3, f, -, h4, -, -⟩ := h
  exact ⟨h2, h3, h4⟩
